import Mathlib

/-!
# Shallow embedding of the `exploring-neos` data model and I/O boundary

This file embeds, in Lean 4, the parts of the repository that the
verified statements below refer to:

* `src/models.py` — the `NearEarthObject` and `CloseApproach` record types,
  their constructors, `fullname`, `__str__` and `time_str`;
* `src/extract.py` — `load_neos` (the per-row construction logic, applied to
  already-parsed CSV rows; file I/O itself is outside the model);
* `src/write.py` — `write_to_csv` and `write_to_json` (the row dictionaries
  built from each approach and the order of effects; the file handle itself
  is outside the model).

Python's dynamically-typed values are modelled by the inductive `PyVal`
(strings, floats, booleans, `None`, and dictionaries), floats by `PyFloat`
(a rational number or the quiet NaN; no claim below depends on IEEE rounding,
only on NaN-ness and on exact decimal constants), and raised exceptions by
`Except PyErr`.

`helpers.py` (`cd_to_datetime`, `datetime_to_str`) is not part of the given
sources; the two functions are modelled from the specification (see their
doc comments).
-/

/-- The Python exceptions the embedded code can raise. -/
inductive PyErr : Type where
  | keyError : PyErr
  | valueError : PyErr
  | typeError : PyErr
  | attributeError : PyErr
deriving DecidableEq, Repr

/-- A Python float: a finite value (exact rational in this model) or the
quiet NaN.  The embedded code does no float arithmetic, so rounding is not
modelled; only NaN-ness and exact constants matter to the statements below. -/
inductive PyFloat : Type where
  | num : ℚ → PyFloat
  | nan : PyFloat
deriving DecidableEq, Repr

/-- A dynamically-typed Python value, as passed to the record constructors
and placed in the serialization row dictionaries. -/
inductive PyVal : Type where
  | str : String → PyVal
  | float : PyFloat → PyVal
  | bool : Bool → PyVal
  | none : PyVal
  | dict : List (String × PyVal) → PyVal

/-- Numeric value of a list of decimal digit characters (most significant
first), as accumulated left to right. -/
def natOfDigits (cs : List Char) : Nat :=
  cs.foldl (fun a c => a * 10 + (c.toNat - 48)) 0

/-- The decimal-numeral part of Python `float(str)`: digits with an optional
fractional part (`"12"`, `"12.5"`, `"12."`, `".5"`); anything else fails. -/
def parseDecimal (cs : List Char) : Option ℚ :=
  let ip := cs.takeWhile Char.isDigit
  let rest := cs.dropWhile Char.isDigit
  match rest with
  | [] => if ip.isEmpty then Option.none else Option.some (natOfDigits ip : ℚ)
  | '.' :: fs =>
    if fs.all Char.isDigit && !(ip.isEmpty && fs.isEmpty) then
      Option.some ((natOfDigits ip : ℚ) + (natOfDigits fs : ℚ) / (10 : ℚ) ^ fs.length)
    else
      Option.none
  | _ => Option.none

/-- Python `float(str)`: strips surrounding whitespace, accepts an optional
sign, the NaN literal, or a decimal numeral.  (The data set uses plain
decimal numerals; exponent and infinity literals are not modelled.) -/
def parseFloat (s : String) : Option PyFloat :=
  let t := ((s.data.dropWhile (fun c => c = ' ')).reverse.dropWhile
    (fun c => c = ' ')).reverse
  if t = ['n', 'a', 'n'] then Option.some PyFloat.nan
  else
    match t with
    | '-' :: cs => (parseDecimal cs).map (fun q => PyFloat.num (-q))
    | '+' :: cs => (parseDecimal cs).map (fun q => PyFloat.num q)
    | cs => (parseDecimal cs).map (fun q => PyFloat.num q)

/-- Python's `float(x)` conversion applied to a dynamically-typed value:
floats pass through (NaN included), numeric strings are parsed (`ValueError`
otherwise), booleans widen to 0.0/1.0, `None` raises `TypeError`. -/
def pyFloatConv : PyVal → Except PyErr PyFloat
  | PyVal.float f => Except.ok f
  | PyVal.str s =>
    match parseFloat s with
    | Option.some f => Except.ok f
    | Option.none => Except.error PyErr.valueError
  | PyVal.bool b => Except.ok (PyFloat.num (if b then 1 else 0))
  | PyVal.none => Except.error PyErr.typeError
  | PyVal.dict _ => Except.error PyErr.typeError

/-- A naive-UTC timestamp, the core's timestamp type. -/
structure DateTime : Type where
  year : Nat
  month : Nat
  day : Nat
  hour : Nat
  minute : Nat
  second : Nat
deriving DecidableEq, Repr

/-- Truncation of a timestamp to minute precision. -/
def DateTime.truncMin (t : DateTime) : DateTime :=
  { t with second := 0 }

/-- The decimal digit character for `n % 10`. -/
def digitChar (n : Nat) : Char :=
  Char.ofNat (48 + n % 10)

/-- Numeric value of a digit character. -/
def digitVal (c : Char) : Nat :=
  c.toNat - 48

/-- Two-digit zero-padded rendering of `n` (modulo 100). -/
def pad2 (n : Nat) : List Char :=
  [digitChar (n / 10), digitChar n]

/-- Four-digit zero-padded rendering of `n` (modulo 10000). -/
def pad4 (n : Nat) : List Char :=
  [digitChar (n / 1000), digitChar (n / 100), digitChar (n / 10), digitChar n]

/-- Modelled from the spec: `helpers.datetime_to_str` is not under `src/`.
The spec requires a minute-precision formatted string for `time`
("must round-trip to a minute-precision string form without reintroducing
seconds"); this renders `YYYY-MM-DD HH:MM`, dropping the seconds. -/
def datetime_to_str (t : DateTime) : String :=
  String.mk (pad4 t.year ++ '-' :: pad2 t.month ++ '-' :: pad2 t.day
    ++ ' ' :: pad2 t.hour ++ ':' :: pad2 t.minute)

/-- Parse a `YYYY-MM-DD HH:MM` minute-precision string, validating digits and
the calendar-field ranges (as `strptime` does); seconds are absent from the
format and come back as 0. -/
def parseDateTimeStr (s : String) : Option DateTime :=
  match s.data with
  | [y3, y2, y1, y0, '-', m1, m0, '-', d1, d0, ' ', h1, h0, ':', n1, n0] =>
    if ([y3, y2, y1, y0, m1, m0, d1, d0, h1, h0, n1, n0].all Char.isDigit) then
      let y := digitVal y3 * 1000 + digitVal y2 * 100 + digitVal y1 * 10 + digitVal y0
      let mo := digitVal m1 * 10 + digitVal m0
      let d := digitVal d1 * 10 + digitVal d0
      let h := digitVal h1 * 10 + digitVal h0
      let mi := digitVal n1 * 10 + digitVal n0
      if 1 ≤ mo ∧ mo ≤ 12 ∧ 1 ≤ d ∧ d ≤ 31 ∧ h ≤ 23 ∧ mi ≤ 59 then
        Option.some ⟨y, mo, d, h, mi, 0⟩
      else
        Option.none
    else
      Option.none
  | _ => Option.none

/-- Modelled from the spec: `helpers.cd_to_datetime` is not under `src/`.
It converts the close-approach time value to the core's timestamp type;
`None` (the constructor's default) is not a string and raises `TypeError`,
a malformed string raises `ValueError`. -/
def cd_to_datetime : Option String → Except PyErr DateTime
  | Option.none => Except.error PyErr.typeError
  | Option.some s =>
    match parseDateTimeStr s with
    | Option.some t => Except.ok t
    | Option.none => Except.error PyErr.valueError

mutual

/-- `models.NearEarthObject`: designation, optional IAU name, diameter,
hazard flag, and the owned collection of linked close approaches. -/
inductive NearEarthObject : Type where
  | mk : String → Option String → PyFloat → Bool → List CloseApproach → NearEarthObject

/-- `models.CloseApproach`: the privately stored designation, the approach
time, distance, velocity, and the back reference to the linked NEO
(`None` until linking). -/
inductive CloseApproach : Type where
  | mk : String → DateTime → PyFloat → PyFloat → Option NearEarthObject → CloseApproach

end

/-- `self.designation` of a NEO. -/
def NearEarthObject.designation : NearEarthObject → String
  | NearEarthObject.mk d _ _ _ _ => d

/-- `self.name` of a NEO (`None` modelled as `Option.none`). -/
def NearEarthObject.name : NearEarthObject → Option String
  | NearEarthObject.mk _ n _ _ _ => n

/-- `self.diameter` of a NEO. -/
def NearEarthObject.diameter : NearEarthObject → PyFloat
  | NearEarthObject.mk _ _ d _ _ => d

/-- `self.hazardous` of a NEO. -/
def NearEarthObject.hazardous : NearEarthObject → Bool
  | NearEarthObject.mk _ _ _ h _ => h

/-- `self.approaches` of a NEO. -/
def NearEarthObject.approaches : NearEarthObject → List CloseApproach
  | NearEarthObject.mk _ _ _ _ a => a

/-- `self._designation` of a close approach. -/
def CloseApproach.desig : CloseApproach → String
  | CloseApproach.mk d _ _ _ _ => d

/-- `self.time` of a close approach. -/
def CloseApproach.time : CloseApproach → DateTime
  | CloseApproach.mk _ t _ _ _ => t

/-- `self.distance` of a close approach. -/
def CloseApproach.distance : CloseApproach → PyFloat
  | CloseApproach.mk _ _ d _ _ => d

/-- `self.velocity` of a close approach. -/
def CloseApproach.velocity : CloseApproach → PyFloat
  | CloseApproach.mk _ _ _ v _ => v

/-- `self.neo` of a close approach (`None` modelled as `Option.none`). -/
def CloseApproach.neo : CloseApproach → Option NearEarthObject
  | CloseApproach.mk _ _ _ _ n => n

/-- `NearEarthObject.__init__(pdes, name, diameter, pha)`: stores the
designation, name and hazard flag as given, converts the diameter with
`float(...)` (which may raise), and creates the empty initial collection of
linked approaches.  The source defaults are `pdes=""`, `name=None`,
`diameter=0.0`, `pha=False`. -/
def nearEarthObjectInit (pdes : String) (name : Option String)
    (diameter : PyVal) (pha : Bool) : Except PyErr NearEarthObject :=
  (pyFloatConv diameter).map (fun d => NearEarthObject.mk pdes name d pha [])

/-- `CloseApproach.__init__(des, dist, v_rel, cd)`: stores the designation,
converts `cd` with `cd_to_datetime` and then `dist` and `v_rel` with
`float(...)` (in source order, each may raise), and sets the referenced-NEO
attribute to `None`.  The source defaults are `des=""`, `dist=0.0`,
`v_rel=0.0`, `cd=None`. -/
def closeApproachInit (des : String) (dist : PyVal) (v_rel : PyVal)
    (cd : Option String) : Except PyErr CloseApproach := do
  let time ← cd_to_datetime cd
  let distance ← pyFloatConv dist
  let velocity ← pyFloatConv v_rel
  Except.ok (CloseApproach.mk des time distance velocity Option.none)

/-- `CloseApproach.time_str`: the minute-precision formatted representation
of the approach time, via `datetime_to_str`. -/
def CloseApproach.time_str (ca : CloseApproach) : String :=
  datetime_to_str ca.time

/-- `self.name if self.name else ""` — the NEO's name, or `""` when the
name is falsy (`None` or the empty string). -/
def pyNameOrEmpty : Option String → String
  | Option.some s => if s = "" then "" else s
  | Option.none => ""

/-- `NearEarthObject.fullname`: `" ".join([des, name])` with the name
replaced by `""` when falsy (`None` or the empty string). -/
def NearEarthObject.fullname (n : NearEarthObject) : String :=
  n.designation ++ " " ++ pyNameOrEmpty n.name

/-- Three-digit zero-padded rendering of `n % 1000`. -/
def pad3Nat (n : Nat) : String :=
  String.mk [digitChar (n / 100), digitChar (n / 10), digitChar n]

/-- Python's fixed-point format `f"{x:.3f}"`.  On NaN it produces the text
`"nan"` rather than raising; on finite values it renders three decimals
(the tie-breaking of Python's rounding is abstracted to round-half-up,
which no statement below depends on). -/
def fmtFixed3 : PyFloat → String
  | PyFloat.nan => "nan"
  | PyFloat.num q =>
    let n := (round (|q| * 1000) : ℤ).toNat
    let sign := if q < 0 then "-" else ""
    sign ++ toString (n / 1000) ++ "." ++ pad3Nat (n % 1000)

/-- `NearEarthObject.__str__`. -/
def neoStr (n : NearEarthObject) : String :=
  let pha := if n.hazardous then "is" else "is not"
  "NEO " ++ n.fullname ++ " has a diameter of " ++ fmtFixed3 n.diameter
    ++ " km and " ++ pha ++ " potentially hazardous."

/-- Python `repr` of a string (naive: the data set's strings contain no
quotes or backslashes, so no escaping is modelled). -/
def pyReprStr (s : String) : String :=
  "'" ++ s ++ "'"

/-- Python `repr` of an optional string (`None` or a quoted string). -/
def pyReprOptStr : Option String → String
  | Option.none => "None"
  | Option.some s => pyReprStr s

/-- `NearEarthObject.__repr__`. -/
def neoRepr (n : NearEarthObject) : String :=
  "NearEarthObject(designation=" ++ pyReprStr n.designation
    ++ ", name=" ++ pyReprOptStr n.name
    ++ ", diameter=" ++ fmtFixed3 n.diameter
    ++ ", hazardous=" ++ (if n.hazardous then "True" else "False") ++ ")"

/-- A CSV row as produced by `csv.DictReader` on a well-formed file: each
header name is paired with the row's cell text (an absent field in the
record is the empty cell `""`). -/
abbrev Row : Type := List (String × String)

/-- Python `row[k]` without the raise: `Option.none` models the `KeyError`
case (header name not present at all). -/
def rowLookup (row : Row) (k : String) : Option String :=
  (row.find? (fun p => p.1 == k)).map Prod.snd

/-- Python `del row[k]`. -/
def rowDel (row : Row) (k : String) : Row :=
  row.filter (fun p => p.1 != k)

/-- Python `row.get(k, d)`. -/
def rowGetD (row : Row) (k d : String) : String :=
  (rowLookup row k).getD d

/-- The per-row body of `extract.load_neos`: drop a falsy (empty) diameter
cell, then construct the `NearEarthObject` with `pdes=row.get("pdes", "")`,
`name=row["name"] or None`, `diameter=row.get("diameter", float("nan"))`,
`pha=True if row["pha"] == "Y" else False`. -/
def load_neo_row (row : Row) : Except PyErr NearEarthObject :=
  match rowLookup row "diameter" with
  | Option.none => Except.error PyErr.keyError
  | Option.some dv =>
    let row1 := if dv = "" then rowDel row "diameter" else row
    let pdes := rowGetD row1 "pdes" ""
    match rowLookup row1 "name" with
    | Option.none => Except.error PyErr.keyError
    | Option.some nv =>
      let name := if nv = "" then Option.none else Option.some nv
      let dArg := match rowLookup row1 "diameter" with
        | Option.some s => PyVal.str s
        | Option.none => PyVal.float PyFloat.nan
      match rowLookup row1 "pha" with
      | Option.none => Except.error PyErr.keyError
      | Option.some pv =>
        nearEarthObjectInit pdes name dArg (pv == "Y")

/-- `extract.load_neos` applied to the already-parsed CSV rows (the file
handle and `csv.DictReader` themselves are outside the model): constructs
one `NearEarthObject` per row, in order, aborting on the first error. -/
def load_neos : List Row → Except PyErr (List NearEarthObject)
  | [] => Except.ok []
  | row :: rest => do
    let neo ← load_neo_row row
    let l ← load_neos rest
    Except.ok (neo :: l)

/-- The output fieldnames of `write.write_to_csv`. -/
def fieldnames : List String :=
  ["datetime_utc", "distance_au", "velocity_km_s", "designation", "name",
   "diameter_km", "potentially_hazardous"]

/-- The dictionary `write.write_to_csv` appends to `results_list` for one
approach.  Reading `result.neo.name` on an unlinked approach (`neo` is
`None`) raises `AttributeError`; the fields computed before the raise are
discarded with the partial dictionary. -/
def write_csv_rowdict (result : CloseApproach) : Except PyErr (List (String × PyVal)) :=
  match result.neo with
  | Option.none => Except.error PyErr.attributeError
  | Option.some neo =>
    Except.ok
      [("datetime_utc", PyVal.str result.time_str),
       ("distance_au", PyVal.float result.distance),
       ("velocity_km_s", PyVal.float result.velocity),
       ("designation", PyVal.str result.desig),
       ("name", match neo.name with
         | Option.some s => PyVal.str s
         | Option.none => PyVal.none),
       ("diameter_km", PyVal.float neo.diameter),
       ("potentially_hazardous", PyVal.bool neo.hazardous)]

/-- One observable effect of `write.write_to_csv`, in order: pulling an
element from the `results` iterable into `results_list`, opening the output
file, `writeheader`, or `writerow` with one row dictionary. -/
inductive CsvEvent : Type where
  | consume : CsvEvent
  | openFile : CsvEvent
  | header : List String → CsvEvent
  | row : List (String × PyVal) → CsvEvent

/-- The first loop of `write.write_to_csv`: build `results_list`, one row
dictionary per element of the `results` stream, in order; building a row
dictionary can raise (unlinked approach), aborting the whole loop before the
output file is ever opened. -/
def build_csv_rows : List CloseApproach → Except PyErr (List (List (String × PyVal)))
  | [] => Except.ok []
  | result :: rest => do
    let r ← write_csv_rowdict result
    let rs ← build_csv_rows rest
    Except.ok (r :: rs)

/-- `write.write_to_csv` as its ordered effect trace (see `CsvEvent`). -/
def write_to_csv (results : List CloseApproach) : Except PyErr (List CsvEvent) := do
  let rows ← build_csv_rows results
  Except.ok (results.map (fun _ => CsvEvent.consume)
    ++ CsvEvent.openFile :: CsvEvent.header fieldnames :: rows.map CsvEvent.row)

/-- The dictionary `write.write_to_json` appends to `results_list` for one
approach; the `"neo"` key maps to a nested dictionary of the linked NEO's
attributes.  Reading `result.neo.designation` on an unlinked approach raises
`AttributeError`. -/
def write_json_rowdict (result : CloseApproach) : Except PyErr (List (String × PyVal)) :=
  match result.neo with
  | Option.none => Except.error PyErr.attributeError
  | Option.some neo =>
    Except.ok
      [("datetime_utc", PyVal.str result.time_str),
       ("distance_au", PyVal.float result.distance),
       ("velocity_km_s", PyVal.float result.velocity),
       ("neo", PyVal.dict
         [("designation", PyVal.str neo.designation),
          ("name", match neo.name with
            | Option.some s => PyVal.str s
            | Option.none => PyVal.none),
          ("diameter_km", PyVal.float neo.diameter),
          ("potentially_hazardous", PyVal.bool neo.hazardous)])]

/-- `write.write_to_json`: the list of row dictionaries handed to
`json.dump` (the file handle and the byte-level rendering are outside the
model; `json.dump` encodes `PyVal.none` as JSON `null`). -/
def write_to_json : List CloseApproach → Except PyErr (List (List (String × PyVal)))
  | [] => Except.ok []
  | result :: rest => do
    let r ← write_json_rowdict result
    let rs ← write_to_json rest
    Except.ok (r :: rs)

/-- Python float via `str()`, as the `csv` module applies to non-string
cells.  NaN renders as `"nan"`; the shortest-round-trip digits of finite
floats are abstracted to an exact rendering, which no statement below
inspects. -/
def pyFloatStr : PyFloat → String
  | PyFloat.nan => "nan"
  | PyFloat.num q => if q.den = 1 then toString q.num ++ ".0" else toString q

/-- The `csv` module's conversion of one cell value when writing: strings
pass through, `None` is written as the empty string (documented `csv` module
behavior), other values via `str()`. -/
def csvRenderField : PyVal → String
  | PyVal.str s => s
  | PyVal.none => ""
  | PyVal.bool b => if b then "True" else "False"
  | PyVal.float f => pyFloatStr f
  | PyVal.dict _ => ""

/-- `json.dump`'s encoding of one atomic value: `None` becomes `null`,
strings are quoted (naive: the data set's strings need no escaping),
booleans lower-case, floats via their decimal text. -/
def jsonAtom : PyVal → String
  | PyVal.none => "null"
  | PyVal.str s => "\"" ++ s ++ "\""
  | PyVal.bool b => if b then "true" else "false"
  | PyVal.float f => pyFloatStr f
  | PyVal.dict _ => ""

/-- Field lookup in a row dictionary (association list). -/
def fieldOf (r : List (String × PyVal)) (k : String) : Option PyVal :=
  (r.find? (fun p => p.1 == k)).map Prod.snd

/-- The row dictionary `write_to_csv` buffers for an approach (the empty
dictionary for an unlinked approach, which in the source raises instead). -/
def csvRowOf (ca : CloseApproach) : List (String × PyVal) :=
  match write_csv_rowdict ca with
  | Except.ok r => r
  | Except.error _ => []

/-- The `"name"` entry of the nested `"neo"` dictionary in the first row
that `write_to_json` hands to `json.dump`. -/
def jsonNameOf (results : List CloseApproach) : Option PyVal :=
  match write_to_json results with
  | Except.ok (r :: _) =>
    match fieldOf r "neo" with
    | Option.some (PyVal.dict nd) => fieldOf nd "name"
    | _ => Option.none
  | _ => Option.none

/-- The `"name"` entry of the first row that `write_to_csv` buffers. -/
def csvNameOf (results : List CloseApproach) : Option PyVal :=
  match build_csv_rows results with
  | Except.ok (r :: _) => fieldOf r "name"
  | _ => Option.none

lemma rowLookup_cons (p : String × String) (rest : Row) (k : String) :
    rowLookup (p :: rest) k =
    if p.1 = k then Option.some p.2 else rowLookup rest k := by
  by_cases h : p.1 = k <;> simp [rowLookup, List.find?_cons, h]

lemma rowDel_cons (p : String × String) (rest : Row) (k : String) :
    rowDel (p :: rest) k =
    if p.1 = k then rowDel rest k else p :: rowDel rest k := by
  by_cases h : p.1 = k <;> simp [rowDel, List.filter_cons, h]

lemma rowLookup_rowDel_self (row : Row) (k : String) :
    rowLookup (rowDel row k) k = Option.none := by
  induction row with
  | nil => rfl
  | cons p rest ih =>
    rw [rowDel_cons]
    by_cases h : p.1 = k
    · rw [if_pos h]; exact ih
    · rw [if_neg h, rowLookup_cons, if_neg h]; exact ih

lemma rowLookup_rowDel_ne (row : Row) (k k' : String) (h : k' ≠ k) :
    rowLookup (rowDel row k) k' = rowLookup row k' := by
  induction row with
  | nil => rfl
  | cons p rest ih =>
    rw [rowDel_cons]
    by_cases hp : p.1 = k
    · have hp' : p.1 ≠ k' := by rw [hp]; exact fun e => h e.symm
      rw [if_pos hp, ih, rowLookup_cons, if_neg hp']
    · rw [if_neg hp, rowLookup_cons, rowLookup_cons, ih]

lemma nearEarthObjectInit_ok {pdes : String} {name : Option String}
    {diameter : PyVal} {pha : Bool} {n : NearEarthObject} :
    nearEarthObjectInit pdes name diameter pha = Except.ok n ↔
    ∃ d, pyFloatConv diameter = Except.ok d ∧ n = NearEarthObject.mk pdes name d pha [] := by
  unfold nearEarthObjectInit
  cases h : pyFloatConv diameter <;> simp [Except.map, eq_comm]

lemma closeApproachInit_ok {des : String} {dist v_rel : PyVal}
    {cd : Option String} {c : CloseApproach} :
    closeApproachInit des dist v_rel cd = Except.ok c ↔
    ∃ t d v, cd_to_datetime cd = Except.ok t ∧ pyFloatConv dist = Except.ok d ∧
      pyFloatConv v_rel = Except.ok v ∧ c = CloseApproach.mk des t d v Option.none := by
  unfold closeApproachInit
  cases h1 : cd_to_datetime cd <;> cases h2 : pyFloatConv dist <;>
    cases h3 : pyFloatConv v_rel <;>
    simp [bind, Except.bind, eq_comm]

/-- A concrete unlinked close approach: its `neo` reference is still the
construction-time `None`. -/
def caUnlinked : CloseApproach :=
  CloseApproach.mk "2020 XY" ⟨2020, 1, 1, 0, 0, 0⟩ (PyFloat.num 1) (PyFloat.num 2) Option.none

/-- C1: an unlinked approach (null `neo` reference) in the results stream
makes both `write_to_csv` and `write_to_json` fail by dereferencing the null
reference (`AttributeError` from `result.neo.name` / `result.neo.designation`)
instead of skipping or encoding the record defensively. -/
theorem c1_write_crashes_on_unlinked :
    write_to_csv [caUnlinked] = Except.error PyErr.attributeError ∧
    write_to_json [caUnlinked] = Except.error PyErr.attributeError :=
  ⟨rfl, rfl⟩

/-- A source record with no designation field at all. -/
def rowNoPdes : Row := [("name", "Eros"), ("diameter", "2"), ("pha", "N")]

/-- C2 (counterexample): a record missing the required designation does not
fail at construction time — `load_neo_row` returns a complete
`NearEarthObject` whose designation silently defaulted to `""`. -/
theorem c2_missing_designation_succeeds :
    load_neo_row rowNoPdes =
      Except.ok (NearEarthObject.mk "" (Option.some "Eros") (PyFloat.num 2) false []) := by
  rfl

/-- C2 (amended): a record whose distance or velocity field is non-numeric
fails immediately at `CloseApproach` construction (the `float(...)`
conversion raises), and no partial object is returned; a missing designation,
by contrast, is silently defaulted (see `c2_missing_designation_succeeds`). -/
theorem c2_nonnumeric_fails (des : String) (dist v_rel : PyVal) (cd : Option String)
    (h : (pyFloatConv dist).isOk = false ∨ (pyFloatConv v_rel).isOk = false) :
    (closeApproachInit des dist v_rel cd).isOk = false := by
  cases h1 : cd_to_datetime cd with
  | error e =>
    simp [closeApproachInit, h1, bind, Except.bind, Except.isOk, Except.toBool]
  | ok t =>
    cases h2 : pyFloatConv dist with
    | error e =>
      simp [closeApproachInit, h1, h2, bind, Except.bind, Except.isOk, Except.toBool]
    | ok d =>
      cases h3 : pyFloatConv v_rel with
      | error e =>
        simp [closeApproachInit, h1, h2, h3, bind, Except.bind, Except.isOk, Except.toBool]
      | ok v =>
        rcases h with h | h
        · rw [h2] at h; simp [Except.isOk, Except.toBool] at h
        · rw [h3] at h; simp [Except.isOk, Except.toBool] at h

/-- Witness for `c2_nonnumeric_fails` at a concrete non-numeric distance. -/
theorem c2_nonnumeric_fails_witness :
    (closeApproachInit "433" (PyVal.str "abc") (PyVal.float (PyFloat.num 0))
      (Option.some "2020-01-01 00:00")).isOk = false :=
  c2_nonnumeric_fails "433" (PyVal.str "abc") (PyVal.float (PyFloat.num 0))
    (Option.some "2020-01-01 00:00") (Or.inl (by rfl))

/-- C7: construction alone never populates either side of the association —
a freshly constructed NEO has an empty `approaches` collection and a freshly
constructed close approach has a null `neo` reference. -/
theorem c7_construction_leaves_links_empty
    (pdes : String) (name : Option String) (diameter : PyVal) (pha : Bool)
    (des : String) (dist v_rel : PyVal) (cd : Option String)
    (n : NearEarthObject) (c : CloseApproach)
    (hn : nearEarthObjectInit pdes name diameter pha = Except.ok n)
    (hc : closeApproachInit des dist v_rel cd = Except.ok c) :
    n.approaches = [] ∧ c.neo = Option.none := by
  obtain ⟨d, -, rfl⟩ := nearEarthObjectInit_ok.mp hn
  obtain ⟨t, dd, v, -, -, -, rfl⟩ := closeApproachInit_ok.mp hc
  exact ⟨rfl, rfl⟩

/-- Witness for `c7_construction_leaves_links_empty` at concrete inputs. -/
theorem c7_construction_leaves_links_empty_witness :
    (NearEarthObject.mk "433" Option.none (PyFloat.num 0) false []).approaches = [] ∧
    (CloseApproach.mk "433" ⟨2020, 1, 1, 0, 0, 0⟩ (PyFloat.num 0) (PyFloat.num 0)
      Option.none).neo = Option.none :=
  c7_construction_leaves_links_empty "433" Option.none (PyVal.float (PyFloat.num 0)) false
    "433" (PyVal.float (PyFloat.num 0)) (PyVal.float (PyFloat.num 0))
    (Option.some "2020-01-01 00:00") _ _ (by rfl) (by rfl)

/-- C8: without an explicit distance or velocity the source defaults
`dist=0.0`, `v_rel=0.0` make both attributes exactly 0.0; and numeric string
inputs are coerced to their float values by the `float(...)` conversion. -/
theorem c8_defaults_and_coercion (des : String) (cd : Option String) (t : DateTime)
    (h : cd_to_datetime cd = Except.ok t) :
    closeApproachInit des (PyVal.float (PyFloat.num 0)) (PyVal.float (PyFloat.num 0)) cd =
      Except.ok (CloseApproach.mk des t (PyFloat.num 0) (PyFloat.num 0) Option.none) ∧
    (∀ sd sv fd fv, parseFloat sd = Option.some fd → parseFloat sv = Option.some fv →
      closeApproachInit des (PyVal.str sd) (PyVal.str sv) cd =
        Except.ok (CloseApproach.mk des t fd fv Option.none)) := by
  constructor
  · exact closeApproachInit_ok.mpr ⟨t, _, _, h, rfl, rfl, rfl⟩
  · intro sd sv fd fv hd hv
    exact closeApproachInit_ok.mpr
      ⟨t, fd, fv, h, by simp [pyFloatConv, hd], by simp [pyFloatConv, hv], rfl⟩

/-- Witness for `c8_defaults_and_coercion` at concrete inputs. -/
theorem c8_defaults_and_coercion_witness :
    closeApproachInit "433" (PyVal.float (PyFloat.num 0)) (PyVal.float (PyFloat.num 0))
      (Option.some "2020-01-01 00:00") =
      Except.ok (CloseApproach.mk "433" ⟨2020, 1, 1, 0, 0, 0⟩ (PyFloat.num 0) (PyFloat.num 0)
        Option.none) ∧
    closeApproachInit "433" (PyVal.str "2") (PyVal.str "3")
      (Option.some "2020-01-01 00:00") =
      Except.ok (CloseApproach.mk "433" ⟨2020, 1, 1, 0, 0, 0⟩ (PyFloat.num 2) (PyFloat.num 3)
        Option.none) :=
  ⟨(c8_defaults_and_coercion "433" (Option.some "2020-01-01 00:00") ⟨2020, 1, 1, 0, 0, 0⟩
      (by rfl)).1,
   (c8_defaults_and_coercion "433" (Option.some "2020-01-01 00:00") ⟨2020, 1, 1, 0, 0, 0⟩
      (by rfl)).2 "2" "3" (PyFloat.num 2) (PyFloat.num 3) (by rfl) (by rfl)⟩

/-- C10: `fullname` is the designation, a single space, and the (possibly
empty) name; with an absent or empty name this leaves a trailing space, and
in every case `fullname` is strictly longer than — hence never equal to —
the bare designation. -/
theorem c10_fullname_trailing_space (n : NearEarthObject) :
    n.fullname = n.designation ++ " " ++ pyNameOrEmpty n.name ∧
    ((n.name = Option.none ∨ n.name = Option.some "") →
      n.fullname = n.designation ++ " ") ∧
    n.fullname ≠ n.designation := by
  refine ⟨rfl, ?_, ?_⟩
  · rintro (h | h) <;>
      simp [NearEarthObject.fullname, pyNameOrEmpty, h]
  · intro h
    have hl := congrArg String.length h
    simp only [NearEarthObject.fullname, String.length_append] at hl
    have h1 : (" " : String).length = 1 := rfl
    omega

/-- Witness for `c10_fullname_trailing_space`, discharging its inner
implication at a concrete NEO with an absent name. -/
theorem c10_fullname_trailing_space_witness :
    (NearEarthObject.mk "433" Option.none (PyFloat.num 0) false []).fullname = "433 " ∧
    (NearEarthObject.mk "433" Option.none (PyFloat.num 0) false []).fullname ≠
      (NearEarthObject.mk "433" Option.none (PyFloat.num 0) false []).designation :=
  ⟨(c10_fullname_trailing_space
      (NearEarthObject.mk "433" Option.none (PyFloat.num 0) false [])).2.1 (Or.inl rfl),
   (c10_fullname_trailing_space
      (NearEarthObject.mk "433" Option.none (PyFloat.num 0) false [])).2.2⟩

lemma load_neo_row_name_cases (row : Row) (neo : NearEarthObject)
    (h : load_neo_row row = Except.ok neo) :
    neo.name = Option.none ∨ ∃ s, s ≠ "" ∧ neo.name = Option.some s := by
  simp only [load_neo_row] at h
  split at h
  · simp at h
  · split at h
    · simp at h
    · split at h
      · simp at h
      · rename_i o1 dval hd o2 nval hneq o3 pval hpeq
        obtain ⟨d, -, rfl⟩ := nearEarthObjectInit_ok.mp h
        by_cases hnv : nval = ""
        · exact Or.inl (by simp [NearEarthObject.name, hnv])
        · exact Or.inr ⟨nval, hnv, by simp [NearEarthObject.name, hnv]⟩

lemma load_neo_row_empty_name (row : Row) (neo : NearEarthObject)
    (hn0 : rowLookup row "name" = Option.some "")
    (h : load_neo_row row = Except.ok neo) :
    neo.name = Option.none := by
  cases hd : rowLookup row "diameter" with
  | none => simp [load_neo_row, hd] at h
  | some dv =>
    by_cases hdv : dv = ""
    · subst hdv
      simp [load_neo_row, hd, rowLookup_rowDel_ne row "diameter" "name" (by decide), hn0,
        rowLookup_rowDel_self] at h
      split at h
      · simp at h
      · obtain ⟨d, -, rfl⟩ := nearEarthObjectInit_ok.mp h
        simp [NearEarthObject.name]
    · simp [load_neo_row, hd, hdv, hn0] at h
      split at h
      · simp at h
      · obtain ⟨d, -, rfl⟩ := nearEarthObjectInit_ok.mp h
        simp [NearEarthObject.name]

lemma load_neo_row_empty_diameter (row : Row) (neo : NearEarthObject)
    (hd0 : rowLookup row "diameter" = Option.some "")
    (h : load_neo_row row = Except.ok neo) :
    neo.diameter = PyFloat.nan := by
  simp [load_neo_row, hd0, rowLookup_rowDel_self] at h
  split at h
  · simp at h
  · split at h
    · simp at h
    · obtain ⟨d, hdc, rfl⟩ := nearEarthObjectInit_ok.mp h
      simp [pyFloatConv] at hdc
      simp [NearEarthObject.diameter, ← hdc]

lemma load_neos_mem (rows : List Row) (l : List NearEarthObject)
    (h : load_neos rows = Except.ok l) (neo : NearEarthObject) (hm : neo ∈ l) :
    ∃ row ∈ rows, load_neo_row row = Except.ok neo := by
  induction rows generalizing l with
  | nil =>
    simp only [load_neos] at h
    cases h
    simp at hm
  | cons row rest ih =>
    cases h1 : load_neo_row row with
    | error e => simp [load_neos, h1, bind, Except.bind] at h
    | ok n =>
      cases h2 : load_neos rest with
      | error e => simp [load_neos, h1, h2, bind, Except.bind] at h
      | ok l2 =>
        simp only [load_neos, h1, h2, bind, Except.bind, Except.ok.injEq] at h
        subst h
        rcases List.mem_cons.mp hm with rfl | hm2
        · exact ⟨row, List.mem_cons_self _ _, h1⟩
        · obtain ⟨r, hr, he⟩ := ih l2 h2 hm2
          exact ⟨r, List.mem_cons_of_mem _ hr, he⟩

lemma load_neos_get (rows : List Row) (l : List NearEarthObject)
    (h : load_neos rows = Except.ok l) :
    l.length = rows.length ∧
    ∀ i (h1 : i < rows.length) (h2 : i < l.length),
      load_neo_row (rows.get ⟨i, h1⟩) = Except.ok (l.get ⟨i, h2⟩) := by
  induction rows generalizing l with
  | nil =>
    simp only [load_neos] at h
    cases h
    exact ⟨rfl, fun i h1 => absurd h1 (Nat.not_lt_zero i)⟩
  | cons row rest ih =>
    cases h1 : load_neo_row row with
    | error e => simp [load_neos, h1, bind, Except.bind] at h
    | ok n =>
      cases h2 : load_neos rest with
      | error e => simp [load_neos, h1, h2, bind, Except.bind] at h
      | ok l2 =>
        simp only [load_neos, h1, h2, bind, Except.bind, Except.ok.injEq] at h
        subst h
        obtain ⟨hlen, hget⟩ := ih l2 h2
        refine ⟨by simp [hlen], fun i hi1 hi2 => ?_⟩
        cases i with
        | zero => exact h1
        | succ j =>
          exact hget j (Nat.lt_of_succ_lt_succ hi1) (Nat.lt_of_succ_lt_succ hi2)

/-- C5: every NEO produced by `load_neos` has either an absent (`None`) name
or a non-empty string name; an empty name field in the source record is
mapped to `None` by `row["name"] or None`, so an empty string is never
stored as a name. -/
theorem c5_name_none_or_nonempty :
    (∀ rows l, load_neos rows = Except.ok l → ∀ neo ∈ l,
      neo.name = Option.none ∨ ∃ s, s ≠ "" ∧ neo.name = Option.some s) ∧
    (∀ row neo, load_neo_row row = Except.ok neo →
      rowLookup row "name" = Option.some "" → neo.name = Option.none) := by
  constructor
  · intro rows l h neo hm
    obtain ⟨row, -, hrow⟩ := load_neos_mem rows l h neo hm
    exact load_neo_row_name_cases row neo hrow
  · intro row neo hrow hname
    exact load_neo_row_empty_name row neo hname hrow

/-- A source record whose name field is the empty cell. -/
def rowEmptyName : Row := [("pdes", "433"), ("name", ""), ("diameter", "2"), ("pha", "N")]

/-- Witness for `c5_name_none_or_nonempty` at a concrete record with an
empty name field. -/
theorem c5_name_none_or_nonempty_witness :
    (NearEarthObject.mk "433" Option.none (PyFloat.num 2) false []).name = Option.none :=
  c5_name_none_or_nonempty.2 rowEmptyName
    (NearEarthObject.mk "433" Option.none (PyFloat.num 2) false []) (by rfl) (by rfl)

/-- C3: a source record whose diameter field is the empty cell yields a NEO
whose diameter is the quiet-NaN sentinel (not 0.0), and formatting it for
diagnostics (`__str__`/`__repr__`) renders the text `nan` instead of
failing. -/
theorem c3_empty_diameter_is_nan (rows : List Row) (l : List NearEarthObject)
    (h : load_neos rows = Except.ok l) (i : Nat) (hi : i < rows.length)
    (hl : i < l.length)
    (hd : rowLookup (rows.get ⟨i, hi⟩) "diameter" = Option.some "") :
    (l.get ⟨i, hl⟩).diameter = PyFloat.nan ∧
    (l.get ⟨i, hl⟩).diameter ≠ PyFloat.num 0 ∧
    neoStr (l.get ⟨i, hl⟩) =
      "NEO " ++ (l.get ⟨i, hl⟩).fullname ++ " has a diameter of " ++ "nan" ++ " km and " ++
        (if (l.get ⟨i, hl⟩).hazardous then "is" else "is not") ++ " potentially hazardous." ∧
    neoRepr (l.get ⟨i, hl⟩) =
      "NearEarthObject(designation=" ++ pyReprStr (l.get ⟨i, hl⟩).designation ++ ", name=" ++
        pyReprOptStr (l.get ⟨i, hl⟩).name ++ ", diameter=" ++ "nan" ++ ", hazardous=" ++
        (if (l.get ⟨i, hl⟩).hazardous then "True" else "False") ++ ")" := by
  obtain ⟨hlen, hget⟩ := load_neos_get rows l h
  have hrow := hget i hi hl
  have hnan := load_neo_row_empty_diameter _ _ hd hrow
  have hnan2 : l[i].diameter = PyFloat.nan := by
    simpa [List.get_eq_getElem] using hnan
  refine ⟨hnan, by simp [hnan2], ?_, ?_⟩
  · simp [neoStr, hnan2, fmtFixed3]
  · simp [neoRepr, hnan2, fmtFixed3]

/-- A source record whose diameter field is the empty cell. -/
def rowEmptyDiam : Row := [("pdes", "433"), ("name", ""), ("diameter", ""), ("pha", "N")]

/-- Witness for `c3_empty_diameter_is_nan` on a concrete one-row input. -/
theorem c3_empty_diameter_is_nan_witness :
    (NearEarthObject.mk "433" Option.none PyFloat.nan false []).diameter = PyFloat.nan ∧
    (NearEarthObject.mk "433" Option.none PyFloat.nan false []).diameter ≠ PyFloat.num 0 := by
  obtain ⟨h1, h2, -, -⟩ := c3_empty_diameter_is_nan [rowEmptyDiam]
      [NearEarthObject.mk "433" Option.none PyFloat.nan false []] (by rfl) 0
      (by decide) (by decide) (by rfl)
  exact ⟨h1, h2⟩

/-- A concrete NEO with an absent name. -/
def neoNoName : NearEarthObject :=
  NearEarthObject.mk "2020 AB" Option.none (PyFloat.num 1) false []

/-- A concrete close approach linked to a NEO with an absent name. -/
def caNoName : CloseApproach :=
  CloseApproach.mk "2020 AB" ⟨2020, 1, 1, 0, 0, 0⟩ (PyFloat.num 1) (PyFloat.num 2)
    (Option.some neoNoName)

/-- C4 (counterexample): for an approach whose linked NEO has an absent
name, `write_to_json` hands `json.dump` the value `None` for the `name`
field — serialized as JSON `null`, not as the empty string. -/
theorem c4_json_name_is_null :
    jsonNameOf [caNoName] = Option.some PyVal.none ∧
    jsonAtom PyVal.none = "null" ∧
    PyVal.none ≠ PyVal.str "" :=
  ⟨rfl, rfl, by simp⟩

/-- C4 (amended): an absent NEO name reaches both writers as Python `None`;
the `csv` module then writes it as the empty field, while `json.dump`
serializes it as `null` — so only the CSV output matches the
empty-string encoding, the JSON output does not. -/
theorem c4_absent_name_serialization (ca : CloseApproach) (neo : NearEarthObject)
    (hne : ca.neo = Option.some neo) (hnm : neo.name = Option.none) :
    (csvNameOf [ca]).map csvRenderField = Option.some "" ∧
    (jsonNameOf [ca]).map jsonAtom = Option.some "null" := by
  constructor
  · have hrow : build_csv_rows [ca] = Except.ok
        [[("datetime_utc", PyVal.str ca.time_str),
          ("distance_au", PyVal.float ca.distance),
          ("velocity_km_s", PyVal.float ca.velocity),
          ("designation", PyVal.str ca.desig),
          ("name", PyVal.none),
          ("diameter_km", PyVal.float neo.diameter),
          ("potentially_hazardous", PyVal.bool neo.hazardous)]] := by
      simp [build_csv_rows, write_csv_rowdict, hne, hnm, bind, Except.bind]
    unfold csvNameOf
    rw [hrow]
    rfl
  · have hrow : write_to_json [ca] = Except.ok
        [[("datetime_utc", PyVal.str ca.time_str),
          ("distance_au", PyVal.float ca.distance),
          ("velocity_km_s", PyVal.float ca.velocity),
          ("neo", PyVal.dict
            [("designation", PyVal.str neo.designation),
             ("name", PyVal.none),
             ("diameter_km", PyVal.float neo.diameter),
             ("potentially_hazardous", PyVal.bool neo.hazardous)])]] := by
      simp [write_to_json, write_json_rowdict, hne, hnm, bind, Except.bind]
    unfold jsonNameOf
    rw [hrow]
    rfl

/-- Witness for `c4_absent_name_serialization` at the concrete approach. -/
theorem c4_absent_name_serialization_witness :
    (csvNameOf [caNoName]).map csvRenderField = Option.some "" ∧
    (jsonNameOf [caNoName]).map jsonAtom = Option.some "null" :=
  c4_absent_name_serialization caNoName neoNoName (by rfl) (by rfl)

lemma build_csv_rows_linked (results : List CloseApproach)
    (h : ∀ ca ∈ results, (ca.neo).isSome = true) :
    build_csv_rows results = Except.ok (results.map csvRowOf) := by
  induction results with
  | nil => rfl
  | cons ca rest ih =>
    have hca := h ca (List.mem_cons_self _ _)
    cases hne : ca.neo with
    | none => rw [hne] at hca; simp at hca
    | some neo =>
      have hr : write_csv_rowdict ca = Except.ok (csvRowOf ca) := by
        simp [write_csv_rowdict, csvRowOf, hne]
      have ht := ih (fun x hx => h x (List.mem_cons_of_mem _ hx))
      simp [build_csv_rows, hr, ht, bind, Except.bind]

/-- C9 (amended): on an input stream whose approaches are all linked,
`write_to_csv` first pulls every element of the stream into the in-memory
`results_list` (all `consume` events precede `openFile`), then opens the
file, writes exactly one header, and writes exactly one data row per input
approach, in input order; a stream containing an unlinked approach instead
aborts during materialization, before the file is opened (see
`c9_unlinked_stream_aborts`). -/
theorem c9_csv_materializes_then_writes (results : List CloseApproach)
    (h : ∀ ca ∈ results, (ca.neo).isSome = true) :
    write_to_csv results = Except.ok (results.map (fun _ => CsvEvent.consume)
      ++ CsvEvent.openFile :: CsvEvent.header fieldnames
      :: results.map (fun ca => CsvEvent.row (csvRowOf ca))) := by
  have hb := build_csv_rows_linked results h
  simp [write_to_csv, hb, bind, Except.bind, List.map_map, Function.comp]

/-- A concrete linked NEO for the serialization witnesses. -/
def neo9 : NearEarthObject :=
  NearEarthObject.mk "99942" (Option.some "Apophis") (PyFloat.num 0) true []

/-- First concrete linked approach. -/
def ca9a : CloseApproach :=
  CloseApproach.mk "99942" ⟨2029, 4, 13, 21, 46, 0⟩ (PyFloat.num 0) (PyFloat.num 7)
    (Option.some neo9)

/-- Second concrete linked approach. -/
def ca9b : CloseApproach :=
  CloseApproach.mk "99942" ⟨2036, 4, 13, 0, 0, 0⟩ (PyFloat.num 1) (PyFloat.num 6)
    (Option.some neo9)

/-- Witness for `c9_csv_materializes_then_writes` on a two-element stream. -/
theorem c9_csv_materializes_then_writes_witness :
    write_to_csv [ca9a, ca9b] = Except.ok ([ca9a, ca9b].map (fun _ => CsvEvent.consume)
      ++ CsvEvent.openFile :: CsvEvent.header fieldnames
      :: [ca9a, ca9b].map (fun ca => CsvEvent.row (csvRowOf ca))) :=
  c9_csv_materializes_then_writes [ca9a, ca9b] (by
    intro ca hca
    rcases List.mem_cons.mp hca with rfl | hca2
    · rfl
    · rcases List.mem_cons.mp hca2 with rfl | hca3
      · rfl
      · cases hca3)

lemma digitChar_isDigit (n : Nat) : (digitChar n).isDigit = true := by
  have h : n % 10 < 10 := Nat.mod_lt _ (by norm_num)
  have key : ∀ k, k < 10 → (Char.ofNat (48 + k)).isDigit = true := by decide
  rw [digitChar]
  exact key (n % 10) h

lemma digitVal_digitChar (n : Nat) : digitVal (digitChar n) = n % 10 := by
  have h : n % 10 < 10 := Nat.mod_lt _ (by norm_num)
  have key : ∀ k, k < 10 → digitVal (Char.ofNat (48 + k)) = k := by decide
  rw [digitChar]
  exact key (n % 10) h

lemma parse_format (t : DateTime) (hy : t.year < 10000)
    (hmo1 : 1 ≤ t.month) (hmo : t.month ≤ 12) (hd1 : 1 ≤ t.day) (hd : t.day ≤ 31)
    (hh : t.hour ≤ 23) (hmi : t.minute ≤ 59) :
    parseDateTimeStr (datetime_to_str t) = Option.some t.truncMin := by
  obtain ⟨y, mo, d, h, mi, s⟩ := t
  simp only at hy hmo1 hmo hd1 hd hh hmi
  have hstr : datetime_to_str ⟨y, mo, d, h, mi, s⟩ =
      String.mk [digitChar (y / 1000), digitChar (y / 100), digitChar (y / 10), digitChar y,
        '-', digitChar (mo / 10), digitChar mo, '-', digitChar (d / 10), digitChar d,
        ' ', digitChar (h / 10), digitChar h, ':', digitChar (mi / 10), digitChar mi] := rfl
  rw [hstr]
  simp only [parseDateTimeStr, List.all_cons, List.all_nil, digitChar_isDigit,
    Bool.and_self, Bool.and_true, if_true, digitVal_digitChar]
  have hcond : 1 ≤ (mo / 10) % 10 * 10 + mo % 10 ∧ (mo / 10) % 10 * 10 + mo % 10 ≤ 12 ∧
      1 ≤ (d / 10) % 10 * 10 + d % 10 ∧ (d / 10) % 10 * 10 + d % 10 ≤ 31 ∧
      (h / 10) % 10 * 10 + h % 10 ≤ 23 ∧ (mi / 10) % 10 * 10 + mi % 10 ≤ 59 := by
    omega
  rw [if_pos hcond]
  simp only [DateTime.truncMin, Option.some.injEq, DateTime.mk.injEq, and_true]
  refine ⟨?_, ?_, ?_, ?_, ?_⟩ <;> omega

/-- C6: formatting an approach's time to its minute-precision `time_str` and
re-parsing that string yields the same timestamp truncated to the minute
(the seconds are dropped, not an error), and re-formatting the re-parsed
value reproduces the very same string (the round-trip is idempotent). -/
theorem c6_time_str_roundtrip (ca : CloseApproach)
    (hy : ca.time.year < 10000) (hmo1 : 1 ≤ ca.time.month) (hmo : ca.time.month ≤ 12)
    (hd1 : 1 ≤ ca.time.day) (hd : ca.time.day ≤ 31)
    (hh : ca.time.hour ≤ 23) (hmi : ca.time.minute ≤ 59) :
    cd_to_datetime (Option.some ca.time_str) = Except.ok ca.time.truncMin ∧
    datetime_to_str ca.time.truncMin = ca.time_str := by
  have h1 := parse_format ca.time hy hmo1 hmo hd1 hd hh hmi
  constructor
  · simp [cd_to_datetime, CloseApproach.time_str, h1]
  · show datetime_to_str ca.time.truncMin = datetime_to_str ca.time
    cases ca.time
    rfl

/-- A concrete close approach whose stored time carries seconds. -/
def caSeconds : CloseApproach :=
  CloseApproach.mk "433" ⟨2020, 1, 1, 12, 30, 45⟩ (PyFloat.num 0) (PyFloat.num 0) Option.none

/-- Witness for `c6_time_str_roundtrip` at a concrete time with seconds. -/
theorem c6_time_str_roundtrip_witness :
    cd_to_datetime (Option.some caSeconds.time_str) = Except.ok caSeconds.time.truncMin ∧
    datetime_to_str caSeconds.time.truncMin = caSeconds.time_str :=
  c6_time_str_roundtrip caSeconds (by decide) (by decide) (by decide) (by decide)
    (by decide) (by decide) (by decide)

/-- C9 (counterexample): the claim's universal quantification over every
finite input stream fails — on a stream containing an unlinked approach,
`write_to_csv` raises `AttributeError` while building `results_list` and
produces no effects at all: the file is never opened and neither a header
row nor any data row is written. -/
theorem c9_unlinked_stream_aborts :
    write_to_csv [ca9a, caUnlinked] = Except.error PyErr.attributeError :=
  rfl
